import Mathlib

/-!
Verification development for the killport repository: a shallow embedding of
the port-ownership resolution and termination engine (src/killport.rs), the
Linux inode-correlation resolver (src/linux.rs), the Unix and Windows kill
primitives (src/unix.rs, src/windows.rs), the docker reachability probe
(src/docker.rs), and the Windows extended-table sizing loop (src/windows.rs).

Fallible Rust code returning `Result<T, io::Error>` is embedded as
`Except Err T`.  The OS and the container runtime are modelled as
environments whose fields record the outcome each collaborator call would
produce at the fixed target port; traces record which collaborators were
consulted and which termination operations were invoked.
-/

set_option maxRecDepth 4096

deriving instance DecidableEq for Except

/-- Mode of operation, from `cli.rs` (`enum Mode { Auto, Process, Container }`). -/
inductive Mode
  | auto
  | process
  | container
deriving DecidableEq, Repr

/-- Errors produced by `nix::sys::signal::kill` (the raw errno). -/
inductive NixErr
  | esrch
  | eperm
  | einval
  | otherErrno (code : Nat)
deriving DecidableEq, Repr

/-- `std::io::Error` values as they appear in the embedded code: either an
uninterpreted OS/runtime error code, or one of the formatted wrapper errors the
source constructs around a failed kill. -/
inductive Err
  | os (code : Nat)
  | killProcFailed (name : String) (pid : Int) (cause : NixErr)
  | openProcFailed (name : String) (pid : Nat) (code : Nat)
  | terminateFailed (name : String) (pid : Nat) (code : Nat)
deriving DecidableEq, Repr

/-- A signal value (`KillportSignal` / `nix Signal`); only its identity
matters to the engine, which passes it through unchanged. -/
structure Signal where
  code : Nat
deriving DecidableEq, Repr

/-- `NativeProcess` from `killport.rs`: pid plus display name. -/
structure NativeProcess where
  pid : Int
  name : String
deriving DecidableEq, Repr

/-- `DockerContainer` from `docker.rs`: the container display name. -/
structure DockerContainer where
  name : String
deriving DecidableEq, Repr

/-- A boxed `dyn Killable` as built by `find_target_killables`: either a
native process or a docker container. -/
inductive Killable
  | proc (p : NativeProcess)
  | cont (c : DockerContainer)
deriving DecidableEq, Repr

/-- `Killable::get_type` (`killport.rs`): "process" for a native process,
"container" for a docker container. -/
def Killable.get_type : Killable → String
  | .proc _ => "process"
  | .cont _ => "container"

/-- `Killable::get_name` (`killport.rs`). -/
def Killable.get_name : Killable → String
  | .proc p => p.name
  | .cont c => c.name

/-- `process.name.to_lowercase().contains("docker")` from
`find_target_killables` (`killport.rs` line 133): case-insensitive
substring test for the runtime's process-name marker. -/
def nameHasDockerMarker (name : String) : Bool :=
  decide (("docker".data) <:+: (name.data.map Char.toLower))

/-- Which external collaborator a resolution step consulted. -/
inductive Query
  | dockerProbe
  | processResolve
  | containerResolve
deriving DecidableEq, Repr

/-- Environment seen by `find_target_killables` for one fixed port: the
outcome each collaborator call would produce.
`find_target_processes` is the platform resolver (`linux.rs`/`macos.rs`),
`is_docker_present` the probe from `docker.rs`, and
`find_target_containers` the container query from `docker.rs`. -/
structure ResolveEnv where
  find_target_processes : Except Err (List NativeProcess)
  is_docker_present : Except Err Bool
  find_target_containers : Except Err (List DockerContainer)

/-- The short-circuit probe
`mode != Mode::Process && DockerContainer::is_docker_present()?`
(`killport.rs` line 126): in Process mode the probe is not consulted and
`docker_present` is false. -/
def dockerProbeStep (env : ResolveEnv) (mode : Mode) :
    Except Err Bool × List Query :=
  if mode = Mode.process then (.ok false, [])
  else (env.is_docker_present, [Query.dockerProbe])

/-- The `if mode != Mode::Container` block of `find_target_killables`
(`killport.rs` lines 128-138): gather native processes, skipping any whose
lowercased name contains "docker" when the runtime was found present. -/
def processStep (env : ResolveEnv) (mode : Mode) (docker_present : Bool) :
    Except Err (List Killable) × List Query :=
  if mode = Mode.container then (.ok [], [])
  else
    match env.find_target_processes with
    | .error e => (.error e, [Query.processResolve])
    | .ok ps =>
        (.ok ((ps.filter
            (fun p => !(docker_present && nameHasDockerMarker p.name))).map
              Killable.proc),
         [Query.processResolve])

/-- The `if docker_present && mode != Mode::Process` block of
`find_target_killables` (`killport.rs` lines 141-147): append container
candidates. -/
def containerStep (env : ResolveEnv) (mode : Mode) (docker_present : Bool) :
    Except Err (List Killable) × List Query :=
  if docker_present && !(mode = Mode.process) then
    match env.find_target_containers with
    | .error e => (.error e, [Query.containerResolve])
    | .ok cs => (.ok (cs.map Killable.cont), [Query.containerResolve])
  else (.ok [], [])

/-- `Killport::find_target_killables` (`killport.rs` lines 120-150),
returning the candidate list (or the first propagated error) together with
the trace of collaborators consulted, in consultation order. -/
def find_target_killables (env : ResolveEnv) (mode : Mode) :
    Except Err (List Killable) × List Query :=
  match dockerProbeStep env mode with
  | (.error e, t) => (.error e, t)
  | (.ok docker_present, t) =>
    match processStep env mode docker_present with
    | (.error e, t2) => (.error e, t ++ t2)
    | (.ok pk, t2) =>
      match containerStep env mode docker_present with
      | (.error e, t3) => (.error e, t ++ t2 ++ t3)
      | (.ok ck, t3) => (.ok (pk ++ ck), t ++ t2 ++ t3)

/-- Environment for termination: the outcome `nix::sys::signal::kill`
would report for a pid, and the outcome `DockerContainer::kill_container`
would report for a container name. -/
structure KillEnv where
  nixKill : Int → Signal → Except NixErr Unit
  dockerKill : String → Signal → Except Err Unit

/-- `Killable::kill` as implemented in `killport.rs`: for a native process,
`kill(pid, signal).map(|_| true)` with the error wrapped into a formatted
message (lines 32-44); for a container, `kill_container(name, signal)?`
then `Ok(true)` (lines 71-74). -/
def Killable.kill (kenv : KillEnv) (sig : Signal) : Killable → Except Err Bool
  | .proc p =>
    match kenv.nixKill p.pid sig with
    | .ok _ => .ok true
    | .error e => .error (.killProcFailed p.name p.pid e)
  | .cont c =>
    match kenv.dockerKill c.name sig with
    | .ok _ => .ok true
    | .error e => .error e

/-- The `for killable in target_killables` loop of `kill_service_by_port`
(`killport.rs` lines 173-183): dry-run records `(type, name)` without
killing; otherwise `killable.kill(signal)?` and record on `true`.  The
second component is the trace of killables on which a termination
operation was actually invoked, in invocation order. -/
def runKillables (kenv : KillEnv) (sig : Signal) (dry_run : Bool) :
    List Killable → Except Err (List (String × String)) × List Killable
  | [] => (.ok [], [])
  | k :: rest =>
    if dry_run then
      match runKillables kenv sig dry_run rest with
      | (.error e, t) => (.error e, t)
      | (.ok l, t) => (.ok ((k.get_type, k.get_name) :: l), t)
    else
      match Killable.kill kenv sig k with
      | .error e => (.error e, [k])
      | .ok b =>
        match runKillables kenv sig dry_run rest with
        | (.error e, t) => (.error e, k :: t)
        | (.ok l, t) =>
          (.ok (if b then (k.get_type, k.get_name) :: l else l), k :: t)

/-- `Killport::kill_service_by_port` (`killport.rs` lines 163-186):
resolve candidates via `find_target_killables` (propagating its error),
then act on each in order.  The second component is the trace of
termination operations invoked. -/
def kill_service_by_port (renv : ResolveEnv) (kenv : KillEnv) (sig : Signal)
    (mode : Mode) (dry_run : Bool) :
    Except Err (List (String × String)) × List Killable :=
  match find_target_killables renv mode with
  | (.error e, _) => (.error e, [])
  | (.ok ks, _) => runKillables kenv sig dry_run ks

/-- `UnixProcess` from `unix.rs`. -/
structure UnixProcess where
  pid : Int
  name : String
deriving DecidableEq, Repr

/-- `UnixProcess::kill` (`unix.rs` lines 28-40):
`kill(self.pid, signal.0).map(|_| true).map_err(|e| Error::new(...))` —
every failure of the underlying `kill`, including ESRCH ("no such
process"), is wrapped into an error and returned as an error. -/
def UnixProcess.kill (kenv : KillEnv) (sig : Signal) (p : UnixProcess) :
    Except Err Bool :=
  match kenv.nixKill p.pid sig with
  | .ok _ => .ok true
  | .error e => .error (.killProcFailed p.name p.pid e)

/-- Environment for the Windows `kill_process` primitive: the handle
`OpenProcess` would return for a pid (0 encodes failure), the outcome of
the `is_process_running` snapshot check, whether `TerminateProcess` would
succeed, and the value `GetLastError` would report. -/
structure WinKillEnv where
  openProcessHandle : Nat → Nat
  isProcessRunning : Nat → Except Err Bool
  terminateSucceeds : Nat → Bool
  lastError : Nat

/-- `kill_process` from `windows.rs` lines 314-357: if `OpenProcess` fails
and `is_process_running(pid)?` reports the process not running, return
`Ok(())` (already-exited is success); if it is still running, return the
open error; otherwise `TerminateProcess`, erroring if it reports failure. -/
def windows_kill_process (env : WinKillEnv) (pid : Nat) (name : String) :
    Except Err Unit :=
  if env.openProcessHandle pid = 0 then
    match env.isProcessRunning pid with
    | .error e => .error e
    | .ok true => .error (.openProcFailed name pid env.lastError)
    | .ok false => .ok ()
  else if env.terminateSucceeds pid then .ok ()
  else .error (.terminateFailed name pid env.lastError)

namespace Linux

/-- `procfs::process::FDTarget`, restricted to what `find_target_processes`
inspects: either a socket with an inode, or any other target kind. -/
inductive FDTarget
  | socket (inode : Nat)
  | otherTarget
deriving DecidableEq, Repr

/-- One readable `/proc` process entry as `find_target_processes`
(`linux.rs`) sees it: its pid and the outcome of `process.fd()` — the fd
table may be unreadable as a whole (`Except.error`), and each entry of a
readable table is itself a fallible read. -/
structure ProcEntry where
  pid : Int
  fds : Except Err (List (Except Err FDTarget))
deriving Repr

/-- `NativeProcess` as defined in `linux.rs` (pid only). -/
structure NativeProcess where
  pid : Int
deriving DecidableEq, Repr

/-- The inner `for fd in fds` loop of `find_target_processes` (`linux.rs`
lines 325-336): each fd read is `fd.map_err(...)?` (a failing entry aborts
the whole call), and every fd whose target is a socket with the sought
inode records the process once more. -/
def scanFds (pid : Int) (inode : Nat) :
    List (Except Err FDTarget) → Except Err (List NativeProcess)
  | [] => .ok []
  | .error e :: _ => .error e
  | .ok t :: rest =>
    match scanFds pid inode rest with
    | .error e => .error e
    | .ok tail =>
      match t with
      | .socket sock_inode =>
        if sock_inode = inode then .ok (⟨pid⟩ :: tail) else .ok tail
      | .otherTarget => .ok tail

/-- The `for p in processes` loop of `find_target_processes` (`linux.rs`
lines 321-338): a failing process entry (`p.map_err(...)?`) aborts the
call; a process whose fd table cannot be read (`if let Ok(fds) =
process.fd()`) is skipped and scanning continues. -/
def scanProcs (inode : Nat) :
    List (Except Err ProcEntry) → Except Err (List NativeProcess)
  | [] => .ok []
  | .error e :: _ => .error e
  | .ok p :: rest =>
    match p.fds with
    | .error _ => scanProcs inode rest
    | .ok fds =>
      match scanFds p.pid inode fds with
      | .error e => .error e
      | .ok here =>
        match scanProcs inode rest with
        | .error e => .error e
        | .ok tail => .ok (here ++ tail)

/-- `find_target_processes` from `linux.rs` lines 315-342: for each target
inode, enumerate all processes (`all_processes()` may itself fail) and
collect one `NativeProcess` per matching socket fd.  No de-duplication by
pid is performed. -/
def find_target_processes
    (allProcs : Except Err (List (Except Err ProcEntry))) :
    List Nat → Except Err (List NativeProcess)
  | [] => .ok []
  | inode :: rest =>
    match allProcs with
    | .error e => .error e
    | .ok procs =>
      match scanProcs inode procs with
      | .error e => .error e
      | .ok here =>
        match find_target_processes allProcs rest with
        | .error e => .error e
        | .ok tail => .ok (here ++ tail)

end Linux

/-- Result of one call to `GetExtendedTcpTable`/`GetExtendedUdpTable` in
`use_extended_table` (`windows.rs`): success, an insufficient-buffer reply
carrying the size the API reports, or any other error code. -/
inductive ApiResult
  | noError
  | insufficient (size : Nat)
  | otherError (code : Nat)
deriving DecidableEq, Repr

/-- The sizing-then-read loop of `use_extended_table` (`windows.rs` lines
382-419), with the API modelled as a function from the supplied buffer
size to its reply and an explicit fuel's worth of iterations (`none`
means the fuel ran out before the loop exited): `NO_ERROR` breaks with
success, `ERROR_INSUFFICIENT_BUFFER` reallocates to exactly the reported
size and retries, and any other code returns an error. -/
def use_extended_table_loop (api : Nat → ApiResult) :
    Nat → Nat → Option (Except Nat Nat)
  | 0, _ => none
  | fuel + 1, size =>
    match api size with
    | .noError => some (.ok size)
    | .insufficient s => use_extended_table_loop api fuel s
    | .otherError c => some (.error c)

/-! ## Helper lemmas -/

lemma dockerProbeStep_process (env : ResolveEnv) :
    dockerProbeStep env Mode.process = (.ok false, []) := rfl

lemma dockerProbeStep_auto (env : ResolveEnv) :
    dockerProbeStep env Mode.auto = (env.is_docker_present, [Query.dockerProbe]) := rfl

lemma dockerProbeStep_container (env : ResolveEnv) :
    dockerProbeStep env Mode.container =
      (env.is_docker_present, [Query.dockerProbe]) := rfl

lemma processStep_container (env : ResolveEnv) (b : Bool) :
    processStep env Mode.container b = (.ok [], []) := rfl

lemma containerStep_false (env : ResolveEnv) (mode : Mode) :
    containerStep env mode false = (.ok [], []) := rfl

lemma containerStep_process (env : ResolveEnv) (b : Bool) :
    containerStep env Mode.process b = (.ok [], []) := by
  cases b <;> rfl

lemma processStep_not_container (env : ResolveEnv) {mode : Mode}
    (h : mode ≠ Mode.container) (b : Bool) {ps : List NativeProcess}
    (hp : env.find_target_processes = .ok ps) :
    processStep env mode b =
      (.ok ((ps.filter
          (fun p => !(b && nameHasDockerMarker p.name))).map Killable.proc),
       [Query.processResolve]) := by
  unfold processStep
  rw [if_neg h, hp]

lemma processStep_no_filter (env : ResolveEnv) {mode : Mode}
    (h : mode ≠ Mode.container) {ps : List NativeProcess}
    (hp : env.find_target_processes = .ok ps) :
    processStep env mode false = (.ok (ps.map Killable.proc), [Query.processResolve]) := by
  rw [processStep_not_container env h false hp]
  simp

lemma ftk_container_eval (env : ResolveEnv) {b : Bool} {cs : List DockerContainer}
    (hb : env.is_docker_present = .ok b)
    (hc : env.find_target_containers = .ok cs) :
    find_target_killables env Mode.container =
      if b then (.ok (cs.map Killable.cont),
                 [Query.dockerProbe, Query.containerResolve])
      else (.ok [], [Query.dockerProbe]) := by
  cases b <;>
    simp [find_target_killables, dockerProbeStep, processStep, containerStep, hb, hc]

lemma ftk_auto_eval (env : ResolveEnv) {b : Bool} {ps : List NativeProcess}
    {cs : List DockerContainer}
    (hb : env.is_docker_present = .ok b)
    (hp : env.find_target_processes = .ok ps)
    (hc : env.find_target_containers = .ok cs) :
    find_target_killables env Mode.auto =
      if b then
        (.ok (((ps.filter (fun p => !(nameHasDockerMarker p.name))).map
            Killable.proc) ++ cs.map Killable.cont),
         [Query.dockerProbe, Query.processResolve, Query.containerResolve])
      else
        (.ok (ps.map Killable.proc), [Query.dockerProbe, Query.processResolve]) := by
  cases b <;>
    simp [find_target_killables, dockerProbeStep, processStep, containerStep, hb, hp, hc]

lemma ftk_process_eval (env : ResolveEnv) {ps : List NativeProcess}
    (hp : env.find_target_processes = .ok ps) :
    find_target_killables env Mode.process =
      (.ok (ps.map Killable.proc), [Query.processResolve]) := by
  simp [find_target_killables, dockerProbeStep, processStep, containerStep, hp]

/-! ## Claim theorems: resolution -/

/-- C10: with mode Container and the docker reachability probe reporting
the runtime unreachable (`is_docker_present` returns `Ok(false)`),
`find_target_killables` returns `Ok` of the empty list, and the trace
shows that neither the platform resolver nor the container query was
consulted — only the probe ran. -/
theorem container_mode_runtime_absent_ok_empty (renv : ResolveEnv)
    (h : renv.is_docker_present = .ok false) :
    find_target_killables renv Mode.container = (.ok [], [Query.dockerProbe]) := by
  simp [find_target_killables, dockerProbeStep, processStep, containerStep, h]

/-- Witness for C10 at a concrete environment in which a native process
does hold the port. -/
theorem container_mode_runtime_absent_ok_empty_witness :
    find_target_killables
      { find_target_processes := .ok [⟨10, "svc"⟩]
      , is_docker_present := .ok false
      , find_target_containers := .ok [] } Mode.container =
      (.ok [], [Query.dockerProbe]) :=
  container_mode_runtime_absent_ok_empty _ rfl

/-- C5: mode filtering is exclusive.  In Container mode the platform
resolver is never consulted and a port with no publishing container
resolves to the empty list; in Process mode neither the docker probe nor
the container query is consulted; in Auto mode the probe and the platform
resolver are consulted, and the container query exactly when the probe
reported the runtime reachable. -/
theorem find_target_killables_mode_exclusive
    (renv : ResolveEnv) (b : Bool) (ps : List NativeProcess)
    (hb : renv.is_docker_present = .ok b)
    (hp : renv.find_target_processes = .ok ps)
    (hc : renv.find_target_containers = .ok []) :
    (find_target_killables renv Mode.container).1 = .ok []
    ∧ Query.dockerProbe ∉ (find_target_killables renv Mode.process).2
    ∧ Query.containerResolve ∉ (find_target_killables renv Mode.process).2
    ∧ Query.processResolve ∉ (find_target_killables renv Mode.container).2
    ∧ Query.dockerProbe ∈ (find_target_killables renv Mode.auto).2
    ∧ Query.processResolve ∈ (find_target_killables renv Mode.auto).2
    ∧ (Query.containerResolve ∈ (find_target_killables renv Mode.auto).2 ↔
        b = true) := by
  have hcont := ftk_container_eval renv hb hc
  have hproc := ftk_process_eval renv hp
  have hauto := ftk_auto_eval renv hb hp hc
  cases b <;> simp at hcont hauto <;>
    exact ⟨by simp [hcont], by simp [hproc], by simp [hproc], by simp [hcont],
           by simp [hauto], by simp [hauto], by simp [hauto]⟩

/-- Witness for C5 at a concrete environment: one native process, docker
reachable, no publishing container. -/
theorem find_target_killables_mode_exclusive_witness :
    (find_target_killables
      { find_target_processes := .ok [⟨10, "svc"⟩]
      , is_docker_present := .ok true
      , find_target_containers := .ok [] } Mode.container).1 = .ok []
    ∧ Query.processResolve ∉ (find_target_killables
      { find_target_processes := .ok [⟨10, "svc"⟩]
      , is_docker_present := .ok true
      , find_target_containers := .ok [] } Mode.container).2 :=
  ⟨(find_target_killables_mode_exclusive _ true [⟨10, "svc"⟩] rfl rfl rfl).1,
   (find_target_killables_mode_exclusive _ true [⟨10, "svc"⟩] rfl rfl rfl).2.2.2.1⟩

/-- C6: a port with zero resolved candidates — the platform resolver
returns no process, no container publishes the port — makes both
`find_target_killables` and `kill_service_by_port` return `Ok` of the
empty sequence (with no termination invoked), for every mode, signal and
dry-run flag; likewise the Linux resolver with no matching socket inode
returns `Ok` of the empty list. -/
theorem empty_port_yields_ok_empty
    (renv : ResolveEnv) (kenv : KillEnv) (sig : Signal) (mode : Mode)
    (dry : Bool) (b : Bool)
    (hp : renv.find_target_processes = .ok [])
    (hb : renv.is_docker_present = .ok b)
    (hc : renv.find_target_containers = .ok []) :
    (find_target_killables renv mode).1 = .ok []
    ∧ kill_service_by_port renv kenv sig mode dry = (.ok [], [])
    ∧ (∀ ap, Linux.find_target_processes ap [] = .ok []) := by
  have hftk : find_target_killables renv mode =
      ((find_target_killables renv mode).1, (find_target_killables renv mode).2) := rfl
  have h1 : (find_target_killables renv mode).1 = .ok [] := by
    cases mode <;> cases b <;>
      simp [ftk_container_eval renv hb hc, ftk_process_eval renv hp,
            ftk_auto_eval renv hb hp hc]
  refine ⟨h1, ?_, fun ap => rfl⟩
  rw [kill_service_by_port, hftk, h1]
  rfl

/-- Witness for C6 at a concrete empty environment. -/
theorem empty_port_yields_ok_empty_witness :
    (find_target_killables
      { find_target_processes := .ok []
      , is_docker_present := .ok true
      , find_target_containers := .ok [] } Mode.auto).1 = .ok []
    ∧ kill_service_by_port
      { find_target_processes := .ok []
      , is_docker_present := .ok true
      , find_target_containers := .ok [] }
      { nixKill := fun _ _ => .ok (), dockerKill := fun _ _ => .ok () }
      ⟨9⟩ Mode.auto false = (.ok [], [])
    ∧ (∀ ap, Linux.find_target_processes ap [] = .ok []) :=
  empty_port_yields_ok_empty _ _ _ _ _ true rfl rfl rfl

/-- C7: in Auto mode, when the docker probe reported the runtime reachable,
every native-process candidate whose display name contains the marker
"docker" as a case-insensitive substring is excluded from the candidate
set; when the probe reported the runtime unreachable, no candidate is
excluded on name grounds — the candidate list is exactly the resolver's
processes. -/
theorem docker_shim_name_filter
    (renv : ResolveEnv) (ps : List NativeProcess) (p : NativeProcess)
    (hp : renv.find_target_processes = .ok ps) (hmem : p ∈ ps) :
    (renv.is_docker_present = .ok true → nameHasDockerMarker p.name = true →
      ∀ l, (find_target_killables renv Mode.auto).1 = .ok l →
        Killable.proc p ∉ l)
    ∧ (renv.is_docker_present = .ok false →
      (find_target_killables renv Mode.auto).1 = .ok (ps.map Killable.proc)) := by
  constructor
  · intro hb hmark l hl
    cases hfc : renv.find_target_containers with
    | error e =>
      simp [find_target_killables, dockerProbeStep, processStep, containerStep,
            hb, hp, hfc] at hl
    | ok cs =>
      have h := ftk_auto_eval renv hb hp hfc
      rw [h] at hl
      simp only [if_true] at hl
      injection hl with hl
      subst hl
      intro hmem2
      rcases List.mem_append.mp hmem2 with h1 | h2
      · rcases List.mem_map.mp h1 with ⟨q, hq, hqe⟩
        injection hqe with hqp
        subst hqp
        have hpred := (List.mem_filter.mp hq).2
        simp [hmark] at hpred
      · rcases List.mem_map.mp h2 with ⟨c, _, hce⟩
        exact Killable.noConfusion hce
  · intro hb
    simp [find_target_killables, dockerProbeStep, processStep, containerStep,
          hb, hp]

/-- Witness for C7 at a concrete environment: one shim process named
"Docker-proxy" next to one ordinary process, runtime reachable. -/
theorem docker_shim_name_filter_witness :
    Killable.proc ⟨11, "Docker-proxy"⟩ ∉
      [Killable.proc ⟨10, "svc"⟩, Killable.cont ⟨"web"⟩] :=
  (docker_shim_name_filter
      { find_target_processes := .ok [⟨10, "svc"⟩, ⟨11, "Docker-proxy"⟩]
      , is_docker_present := .ok true
      , find_target_containers := .ok [⟨"web"⟩] }
      [⟨10, "svc"⟩, ⟨11, "Docker-proxy"⟩] ⟨11, "Docker-proxy"⟩
      rfl (by decide)).1 rfl (by decide)
    [Killable.proc ⟨10, "svc"⟩, Killable.cont ⟨"web"⟩] (by decide)

/-! ## Engine lemmas -/

lemma runKillables_dry (kenv : KillEnv) (sig : Signal) (ks : List Killable) :
    runKillables kenv sig true ks =
      (.ok (ks.map fun k => (k.get_type, k.get_name)), []) := by
  induction ks with
  | nil => rfl
  | cons k rest ih => simp [runKillables, ih]

lemma runKillables_error_at (kenv : KillEnv) (sig : Signal) :
    ∀ (pre : List Killable) (k : Killable) (post : List Killable) (e : Err),
      (∀ k2 ∈ pre, ∃ b, Killable.kill kenv sig k2 = .ok b) →
      Killable.kill kenv sig k = .error e →
      runKillables kenv sig false (pre ++ k :: post) = (.error e, pre ++ [k])
  | [], k, post, e, _, hk => by simp [runKillables, hk]
  | k2 :: pre, k, post, e, hpre, hk => by
    obtain ⟨b, hb⟩ := hpre k2 (List.mem_cons_self k2 pre)
    have ih := runKillables_error_at kenv sig pre k post e
      (fun k3 h3 => hpre k3 (List.mem_cons_of_mem k2 h3)) hk
    simp [runKillables, hb, ih]

lemma runKillables_ok_sound (kenv : KillEnv) (sig : Signal) :
    ∀ (ks : List Killable) (l : List (String × String)) (tr : List Killable),
      runKillables kenv sig false ks = (.ok l, tr) →
      ∀ x ∈ l, ∃ k, k ∈ ks ∧ k.get_type = x.1 ∧ k.get_name = x.2 ∧
        Killable.kill kenv sig k = .ok true
  | [], l, tr, hrun => by
    simp [runKillables] at hrun
    intro x hx
    rw [hrun.1] at hx
    exact absurd hx (List.not_mem_nil x)
  | k :: rest, l, tr, hrun => by
    intro x hx
    cases hk : Killable.kill kenv sig k with
    | error e => simp [runKillables, hk] at hrun
    | ok b =>
      cases hrest : runKillables kenv sig false rest with
      | mk r tr2 =>
        cases r with
        | error e => simp [runKillables, hk, hrest] at hrun
        | ok l2 =>
          simp [runKillables, hk, hrest] at hrun
          cases b with
          | false =>
            simp at hrun
            rw [← hrun.1] at hx
            obtain ⟨k2, hmem, h⟩ :=
              runKillables_ok_sound kenv sig rest l2 tr2 hrest x hx
            exact ⟨k2, List.mem_cons_of_mem k hmem, h⟩
          | true =>
            simp at hrun
            rw [← hrun.1] at hx
            rcases List.mem_cons.mp hx with hx1 | hx2
            · exact ⟨k, List.mem_cons_self k rest, by rw [hx1], by rw [hx1], hk⟩
            · obtain ⟨k2, hmem, h⟩ :=
                runKillables_ok_sound kenv sig rest l2 tr2 hrest x hx2
              exact ⟨k2, List.mem_cons_of_mem k hmem, h⟩

/-! ## Claim theorems: termination engine -/

/-- C1: with dry-run false, if the termination of a candidate in the
resolved candidate list fails while every earlier candidate's termination
reported `Ok`, then `kill_service_by_port` returns exactly that error, the
termination trace stops at the failing candidate (no later candidate is
acted upon), and no partially filled success list is produced; and every `(kind,
name)` pair in a returned `Ok` list corresponds to a candidate whose
termination reported success. -/
theorem kill_service_first_failure_aborts
    (renv : ResolveEnv) (kenv : KillEnv) (sig : Signal) (mode : Mode)
    (ks : List Killable) (t : List Query)
    (hres : find_target_killables renv mode = (.ok ks, t)) :
    (∀ (pre : List Killable) (k : Killable) (post : List Killable) (e : Err),
      ks = pre ++ k :: post →
      (∀ k2 ∈ pre, ∃ b, Killable.kill kenv sig k2 = .ok b) →
      Killable.kill kenv sig k = .error e →
      kill_service_by_port renv kenv sig mode false = (.error e, pre ++ [k]))
    ∧ (∀ (l : List (String × String)) (tr : List Killable),
      kill_service_by_port renv kenv sig mode false = (.ok l, tr) →
      ∀ x ∈ l, ∃ k, k ∈ ks ∧ k.get_type = x.1 ∧ k.get_name = x.2 ∧
        Killable.kill kenv sig k = .ok true) := by
  have hksp : kill_service_by_port renv kenv sig mode false =
      runKillables kenv sig false ks := by
    rw [kill_service_by_port, hres]
  constructor
  · intro pre k post e hsplit hpre hk
    rw [hksp, hsplit]
    exact runKillables_error_at kenv sig pre k post e hpre hk
  · intro l tr hrun
    rw [hksp] at hrun
    exact runKillables_ok_sound kenv sig ks l tr hrun

/-- Witness for C1: concrete environment in which the first candidate's
kill fails with EPERM; the engine propagates the wrapped error and acts on
no later candidate. -/
theorem kill_service_first_failure_aborts_witness :
    kill_service_by_port
      { find_target_processes := .ok [⟨10, "svc"⟩, ⟨11, "svc2"⟩]
      , is_docker_present := .ok false
      , find_target_containers := .ok [] }
      { nixKill := fun _ _ => .error .eperm
      , dockerKill := fun _ _ => .ok () }
      ⟨9⟩ Mode.auto false =
      (.error (.killProcFailed "svc" 10 .eperm), [Killable.proc ⟨10, "svc"⟩]) :=
  (kill_service_first_failure_aborts _ _ _ _
      [Killable.proc ⟨10, "svc"⟩, Killable.proc ⟨11, "svc2"⟩]
      [Query.dockerProbe, Query.processResolve] (by decide)).1
    [] (Killable.proc ⟨10, "svc"⟩) [Killable.proc ⟨11, "svc2"⟩]
    (.killProcFailed "svc" 10 .eperm) rfl
    (by intro k2 h2; exact absurd h2 (List.not_mem_nil k2)) rfl

/-- C4: with dry-run true, `kill_service_by_port` invokes no termination
operation (the termination trace is empty, so every candidate's state is
untouched) and returns the `(kind, name)` pair of every resolved
candidate in candidate order; and, the state being untouched, a second
dry-run invocation — even under arbitrarily different kill behaviour and
signal — reports exactly the same candidates. -/
theorem kill_service_dry_run_frame
    (renv : ResolveEnv) (kenv kenv2 : KillEnv) (sig sig2 : Signal)
    (mode : Mode) (ks : List Killable) (t : List Query)
    (hres : find_target_killables renv mode = (.ok ks, t)) :
    kill_service_by_port renv kenv sig mode true =
      (.ok (ks.map fun k => (k.get_type, k.get_name)), [])
    ∧ kill_service_by_port renv kenv sig mode true =
      kill_service_by_port renv kenv2 sig2 mode true := by
  have h1 : kill_service_by_port renv kenv sig mode true =
      (.ok (ks.map fun k => (k.get_type, k.get_name)), []) := by
    rw [kill_service_by_port, hres]
    exact runKillables_dry kenv sig ks
  have h2 : kill_service_by_port renv kenv2 sig2 mode true =
      (.ok (ks.map fun k => (k.get_type, k.get_name)), []) := by
    rw [kill_service_by_port, hres]
    exact runKillables_dry kenv2 sig2 ks
  exact ⟨h1, h1.trans h2.symm⟩

/-- Witness for C4: concrete occupied port, dry run reports the process
and the container without invoking any termination. -/
theorem kill_service_dry_run_frame_witness :
    kill_service_by_port
      { find_target_processes := .ok [⟨10, "svc"⟩]
      , is_docker_present := .ok true
      , find_target_containers := .ok [⟨"web"⟩] }
      { nixKill := fun _ _ => .error .eperm
      , dockerKill := fun _ _ => .ok () }
      ⟨9⟩ Mode.auto true =
      (.ok [("process", "svc"), ("container", "web")], []) :=
  (kill_service_dry_run_frame _ _
      { nixKill := fun _ _ => .ok (), dockerKill := fun _ _ => .ok () } _ ⟨15⟩
      Mode.auto [Killable.proc ⟨10, "svc"⟩, Killable.cont ⟨"web"⟩]
      [Query.dockerProbe, Query.processResolve, Query.containerResolve]
      (by decide)).1

/-! ## Claim theorems: Linux resolver -/

/-- C2 (failing evaluation): the Linux resolver records one candidate per
matching file descriptor with no de-duplication by pid — a single process
holding two descriptors on the same socket inode is returned twice — and
the engine then invokes termination on that same pid twice in one
invocation. -/
theorem linux_resolver_duplicates_pid :
    Linux.find_target_processes
      (.ok [.ok ⟨1, .ok [.ok (.socket 5), .ok (.socket 5)]⟩]) [5] =
      .ok [⟨1⟩, ⟨1⟩]
    ∧ (kill_service_by_port
        { find_target_processes := .ok [⟨1, "svc"⟩, ⟨1, "svc"⟩]
        , is_docker_present := .ok false
        , find_target_containers := .ok [] }
        { nixKill := fun _ _ => .ok (), dockerKill := fun _ _ => .ok () }
        ⟨9⟩ Mode.auto false).2 =
      [Killable.proc ⟨1, "svc"⟩, Killable.proc ⟨1, "svc"⟩] :=
  ⟨by decide, by decide⟩

lemma scanProcs_skip (inode : Nat) (bad : Linux.ProcEntry) (e : Err)
    (he : bad.fds = .error e) :
    ∀ (pre post : List (Except Err Linux.ProcEntry)),
      Linux.scanProcs inode (pre ++ .ok bad :: post) =
        Linux.scanProcs inode (pre ++ post)
  | [], post => by simp [Linux.scanProcs, he]
  | .error e2 :: pre, post => by simp [Linux.scanProcs]
  | .ok p :: pre, post => by
    simp [Linux.scanProcs, scanProcs_skip inode bad e he pre post]

/-- C8: a process whose file-descriptor table cannot be read is skipped
and the inode-correlation scan continues — the resolver's result over a
process list containing the unreadable process equals its result over the
same list with that process removed, so the candidates found in all other
processes are still returned rather than an error. -/
theorem fd_table_failure_skipped
    (pre post : List (Except Err Linux.ProcEntry)) (bad : Linux.ProcEntry)
    (e : Err) (inodes : List Nat)
    (he : bad.fds = .error e) :
    Linux.find_target_processes (.ok (pre ++ .ok bad :: post)) inodes =
      Linux.find_target_processes (.ok (pre ++ post)) inodes := by
  induction inodes with
  | nil => rfl
  | cons inode rest ih =>
    simp [Linux.find_target_processes, scanProcs_skip inode bad e he pre post, ih]

/-- Witness for C8: with one readable process holding the socket and one
process whose fd table read fails with EACCES, the scan returns exactly
the readable process's candidate. -/
theorem fd_table_failure_skipped_witness :
    Linux.find_target_processes
      (.ok [.ok ⟨1, .ok [.ok (.socket 5)]⟩, .ok ⟨2, .error (.os 13)⟩]) [5] =
      Linux.find_target_processes (.ok [.ok ⟨1, .ok [.ok (.socket 5)]⟩]) [5]
    ∧ Linux.find_target_processes
      (.ok [.ok ⟨1, .ok [.ok (.socket 5)]⟩, .ok ⟨2, .error (.os 13)⟩]) [5] =
      .ok [⟨1⟩] :=
  ⟨fd_table_failure_skipped [.ok ⟨1, .ok [.ok (.socket 5)]⟩] []
      ⟨2, .error (.os 13)⟩ (.os 13) [5] rfl,
   (fd_table_failure_skipped [.ok ⟨1, .ok [.ok (.socket 5)]⟩] []
      ⟨2, .error (.os 13)⟩ (.os 13) [5] rfl).trans (by decide)⟩

/-! ## Claim theorems: platform kill primitives -/

/-- C3 (counterexample): on the Unix side, a target that already exited —
the underlying `kill` reports ESRCH, "no such process" — makes
`UnixProcess::kill` return an error, not success. -/
theorem unix_kill_already_exited_is_error :
    UnixProcess.kill
      { nixKill := fun _ _ => .error .esrch, dockerKill := fun _ _ => .ok () }
      ⟨9⟩ ⟨3, "svc"⟩ = .error (.killProcFailed "svc" 3 .esrch) := by
  decide

/-- C3 (amended): tolerance of an already-exited target is
platform-dependent.  The Windows `kill_process` treats a target whose
handle cannot be opened and which the snapshot shows not running as
success; the Unix `kill` wraps every failure of the underlying `kill`,
including ESRCH ("no such process"), into an error. -/
theorem kill_already_exited_platform_dependent :
    (∀ (env : WinKillEnv) (pid : Nat) (name : String),
      env.openProcessHandle pid = 0 → env.isProcessRunning pid = .ok false →
      windows_kill_process env pid name = .ok ())
    ∧ (∀ (kenv : KillEnv) (sig : Signal) (p : UnixProcess),
      kenv.nixKill p.pid sig = .error .esrch →
      UnixProcess.kill kenv sig p =
        .error (.killProcFailed p.name p.pid .esrch)) := by
  constructor
  · intro env pid name h1 h2
    simp [windows_kill_process, h1, h2]
  · intro kenv sig p h
    simp [UnixProcess.kill, h]

/-- Witness for C3's amended statement at concrete environments. -/
theorem kill_already_exited_platform_dependent_witness :
    windows_kill_process
      { openProcessHandle := fun _ => 0
      , isProcessRunning := fun _ => .ok false
      , terminateSucceeds := fun _ => true
      , lastError := 5 } 42 "svc" = .ok ()
    ∧ UnixProcess.kill
      { nixKill := fun _ _ => .error .esrch, dockerKill := fun _ _ => .ok () }
      ⟨9⟩ ⟨7, "stale"⟩ = .error (.killProcFailed "stale" 7 .esrch) :=
  ⟨kill_already_exited_platform_dependent.1 _ 42 "svc" rfl rfl,
   kill_already_exited_platform_dependent.2 _ ⟨9⟩ ⟨7, "stale"⟩ rfl⟩

/-! ## Claim theorems: Windows sizing-then-read loop -/

/-- C9: the sizing-then-read loop exits with success when the API reports
no error, retries with exactly the API-reported size on an
insufficient-buffer reply, exits with an error for every other error
class, and — assuming each insufficient-buffer reply reports a size
sufficient for the next call (the next call does not report
insufficient-buffer again) — the loop exits within two iterations. -/
theorem use_extended_table_loop_spec (api : Nat → ApiResult) :
    (∀ (fuel size : Nat), api size = .noError →
      use_extended_table_loop api (fuel + 1) size = some (.ok size))
    ∧ (∀ (fuel size s : Nat), api size = .insufficient s →
      use_extended_table_loop api (fuel + 1) size =
        use_extended_table_loop api fuel s)
    ∧ (∀ (fuel size c : Nat), api size = .otherError c →
      use_extended_table_loop api (fuel + 1) size = some (.error c))
    ∧ ((∀ (s s2 : Nat), api s = .insufficient s2 →
          ∀ (s3 : Nat), api s2 ≠ .insufficient s3) →
      ∀ (size : Nat), ∃ r, use_extended_table_loop api 2 size = some r) := by
  refine ⟨?_, ?_, ?_, ?_⟩
  · intro fuel size h
    simp [use_extended_table_loop, h]
  · intro fuel size s h
    simp [use_extended_table_loop, h]
  · intro fuel size c h
    simp [use_extended_table_loop, h]
  · intro hgood size
    cases h1 : api size with
    | noError => exact ⟨.ok size, by simp [use_extended_table_loop, h1]⟩
    | otherError c => exact ⟨.error c, by simp [use_extended_table_loop, h1]⟩
    | insufficient s =>
      cases h2 : api s with
      | noError =>
        exact ⟨.ok s, by simp [use_extended_table_loop, h1, h2]⟩
      | otherError c =>
        exact ⟨.error c, by simp [use_extended_table_loop, h1, h2]⟩
      | insufficient s2 => exact absurd h2 (hgood size s h1 s2)

/-- Witness for C9: a concrete API that reports insufficient-buffer with
size 64 below 64 bytes and succeeds from 64 on; the loop exits within two
iterations from initial size 16. -/
theorem use_extended_table_loop_spec_witness :
    ∃ r, use_extended_table_loop
      (fun s => if s < 64 then ApiResult.insufficient 64 else ApiResult.noError)
      2 16 = some r :=
  (use_extended_table_loop_spec _).2.2.2
    (by
      intro s s2 h s3
      by_cases hs : s < 64
      · simp [hs] at h
        rw [← h]
        simp
      · simp [hs] at h)
    16
